import Mathlib

/-!
# Verification of the low-level libffi wrapper (`src/src/low.rs`)

This file gives a shallow embedding of the low-level libffi binding and of
the parts of libffi it wraps, and proves the specified properties about it.

The Rust layer under `src/` is a thin wrapper: the pure status
classification `ffi_status_to_result` and the public operations `prep_cif`,
`prep_cif_var`, `call`, `closure_alloc`, `closure_free` and
`prep_closure_loc` are translated directly from the source.  The underlying
C entry points (`ffi_prep_cif`, `ffi_prep_cif_var`, `ffi_call`,
`ffi_closure_alloc`, `ffi_prep_closure_loc`) and the status / type / cif
structures are declared in the crate's `c` module, which is not part of the
sources here, so they are modelled from the specification; each such
definition carries a doc comment starting with `Modelled from the spec:`.
Machine integers are modelled as `Nat` with explicit reduction modulo
`2 ^ 64` where u64 wrap-around matters.  Out-parameters written through raw
pointers are modelled by returning the updated value alongside the result.
-/

namespace Low

/-- The two kinds of errors reported by libffi (`Error`, src/src/low.rs
lines 11-12). -/
inductive Error
  | BadTypedef
  | BadAbi
  deriving DecidableEq, Repr

/-- A specialized result type for libffi operations (`Result<T>`,
src/src/low.rs line 15). -/
abbrev Result (T : Type) : Type := Except Error T

/-- Modelled from the spec: the status enumeration returned by the C entry
points.  The `c` module declaring it is not under src; the exhaustive match
in `ffi_status_to_result` (src/src/low.rs lines 17-24) shows it has exactly
these three variants. -/
inductive ffi_status
  | FFI_OK
  | FFI_BAD_TYPEDEF
  | FFI_BAD_ABI
  deriving DecidableEq, Repr

/-- `ffi_status_to_result` (src/src/low.rs lines 17-24): classifies a C
status into the two-valued error taxonomy. -/
def ffi_status_to_result {R : Type} (status : ffi_status) (good : R) :
    Result R :=
  match status with
  | .FFI_OK => .ok good
  | .FFI_BAD_TYPEDEF => .error .BadTypedef
  | .FFI_BAD_ABI => .error .BadAbi

/-- Modelled from the spec: a Type Descriptor Reference is opaque layout
metadata (size and alignment) together with whether the metadata reachable
from it is internally consistent; the core consumes it by reference and
never mutates it.  The `_ffi_type` struct lives in the missing `c`
module. -/
structure ffi_type where
  size : Nat
  alignment : Nat
  wellFormed : Bool
  deriving DecidableEq, Repr

/-- Modelled from the spec: a platform ABI tag from the calling-convention
enumeration of the missing `c` module; `supported` records whether this
platform implements the tag. -/
structure ffi_abi where
  tag : Nat
  supported : Bool
  deriving DecidableEq, Repr

/-- Modelled from the spec: the Call Interface descriptor of the missing
`c` module holds the ABI tag, the argument count, a reference to the
return-type descriptor and the ordered references to the argument-type
descriptors. -/
structure ffi_cif where
  abi : ffi_abi
  nargs : Nat
  rtype : ffi_type
  arg_types : List ffi_type
  deriving DecidableEq, Repr

/-- The zero-initialized cif produced by `Default::default()` in the test
(src/src/low.rs line 154). -/
def cif0 : ffi_cif := ⟨⟨0, false⟩, 0, ⟨0, 0, false⟩, []⟩

/-- Whether a return type and a list of argument types are all internally
consistent. -/
def typesWellFormed (rtype : ffi_type) (atypes : List ffi_type) : Bool :=
  rtype.wellFormed && atypes.all (fun t => t.wellFormed)

/-- One past the largest u32 value; the range of `c_uint`. -/
def UINT32_MOD : Nat := 2 ^ 32

/-- The truncating `usize` to `c_uint` (u32) cast applied at the FFI
boundary: `nargs as c_uint` (src/src/low.rs line 61) and the
`nfixedargs as c_uint` / `ntotalargs as c_uint` casts (src/src/low.rs
lines 76-77). -/
def c_uint_of (n : Nat) : Nat := n % UINT32_MOD

/-- Modelled from the spec: the C function `ffi_prep_cif` (declared in the
missing `c` module) validates that every type descriptor it will read is
well formed and that the ABI tag is supported; on success it fills the cif
with the abi, the caller supplied argument count and the type references,
and on failure it reports the status while the caller-visible cif storage
stays as it was. -/
def ffi_prep_cif (cif : ffi_cif) (abi : ffi_abi) (nargs : Nat)
    (rtype : ffi_type) (atypes : List ffi_type) : ffi_status × ffi_cif :=
  if !typesWellFormed rtype (atypes.take nargs) then (.FFI_BAD_TYPEDEF, cif)
  else if !abi.supported then (.FFI_BAD_ABI, cif)
  else (.FFI_OK, ⟨abi, nargs, rtype, atypes.take nargs⟩)

/-- `prep_cif` (src/src/low.rs lines 54-64): forwards to `ffi_prep_cif`,
passing `nargs` through the truncating `nargs as c_uint` cast of line 61,
and converts the returned status; the cif out-parameter is the second
component. -/
def prep_cif (cif : ffi_cif) (abi : ffi_abi) (nargs : Nat)
    (rtype : ffi_type) (atypes : List ffi_type) : Result Unit × ffi_cif :=
  let r := ffi_prep_cif cif abi (c_uint_of nargs) rtype atypes
  (ffi_status_to_result r.1 (), r.2)

/-- Modelled from the spec: the C function `ffi_prep_cif_var` (missing `c`
module) has the same failure modes as `ffi_prep_cif` and additionally
requires the fixed argument count not to exceed the total argument count;
on success the descriptor's argument count is the total count. -/
def ffi_prep_cif_var (cif : ffi_cif) (abi : ffi_abi)
    (nfixedargs ntotalargs : Nat) (rtype : ffi_type)
    (atypes : List ffi_type) : ffi_status × ffi_cif :=
  if !typesWellFormed rtype (atypes.take ntotalargs) then
    (.FFI_BAD_TYPEDEF, cif)
  else if !abi.supported then (.FFI_BAD_ABI, cif)
  else if ntotalargs < nfixedargs then (.FFI_BAD_TYPEDEF, cif)
  else (.FFI_OK, ⟨abi, ntotalargs, rtype, atypes.take ntotalargs⟩)

/-- `prep_cif_var` (src/src/low.rs lines 68-80): forwards to
`ffi_prep_cif_var`, passing both counts through the truncating `as c_uint`
casts of lines 76-77, and converts the returned status. -/
def prep_cif_var (cif : ffi_cif) (abi : ffi_abi)
    (nfixedargs ntotalargs : Nat) (rtype : ffi_type)
    (atypes : List ffi_type) : Result Unit × ffi_cif :=
  let r := ffi_prep_cif_var cif abi (c_uint_of nfixedargs)
    (c_uint_of ntotalargs) rtype atypes
  (ffi_status_to_result r.1 (), r.2)

/-- One past the largest u64 value. -/
def UINT64_MOD : Nat := 2 ^ 64

/-- Modelled from the spec: the C function `ffi_call` (missing `c` module)
marshals the argument values, transfers control to the entry point and
captures the returned value; the descriptor is consumed read-only.
Specialised to a `(uint64) -> uint64` interface, with the entry point given
by its u64 semantic function applied to the single argument value. -/
def ffi_call (_cif : ffi_cif) (fn : Nat → Nat) (args : List Nat) : Nat :=
  fn (args.headD 0)

/-- `call` (src/src/low.rs lines 84-91): performs the foreign call through
the cif and returns the captured result; the cif, read through a raw
pointer, is returned unchanged as the second component. -/
def call (cif : ffi_cif) (fn : Nat → Nat) (args : List Nat) :
    Nat × ffi_cif :=
  (ffi_call cif fn args, cif)

/-- A u64 heap: the value stored at each address.  Used to model data
reached through the user-data pointer of a closure. -/
def Mem : Type := Nat → Nat

/-- `Callback<U>` (src/src/low.rs lines 111-115): the function called by a
closure.  It receives the cif, the argument values, the user-data pointer
bound at prepare time and the current memory; it produces the value it
writes into the result slot and the memory after it returns. -/
def Callback (U : Type) : Type := ffi_cif → List Nat → U → Mem → Nat × Mem

/-- Modelled from the spec: the lifecycle of one closure trampoline block,
allocated, then prepared (holding the bound cif, callback, user data and
entry point), then freed. -/
inductive ClosureState (U : Type)
  | allocated
  | prepared (cif : ffi_cif) (fn : Callback U) (user_data : U) (code : Nat)
  | freed

/-- Modelled from the spec: the C function `ffi_prep_closure_loc` (missing
`c` module) rejects a malformed cif under the same conditions as the
builder and otherwise binds the cif, the callback, the user data and the
entry point into the closure block; the cif is consumed read-only. -/
def ffi_prep_closure_loc {U : Type} (closure : ClosureState U)
    (cif : ffi_cif) (fn : Callback U) (user_data : U) (code : Nat) :
    ffi_status × ClosureState U :=
  if !typesWellFormed cif.rtype cif.arg_types then
    (.FFI_BAD_TYPEDEF, closure)
  else if !cif.abi.supported then (.FFI_BAD_ABI, closure)
  else (.FFI_OK, .prepared cif fn user_data code)

/-- `prep_closure_loc` (src/src/low.rs lines 119-131): forwards to
`ffi_prep_closure_loc` and converts the returned status; the closure
out-parameter is the second component and the cif, read through a raw
pointer and never written, the third. -/
def prep_closure_loc {U : Type} (closure : ClosureState U) (cif : ffi_cif)
    (fn : Callback U) (user_data : U) (code : Nat) :
    Result Unit × ClosureState U × ffi_cif :=
  let r := ffi_prep_closure_loc closure cif fn user_data code
  (ffi_status_to_result r.1 (), r.2, cif)

/-- The user-data pointer currently bound in a closure block, when one
is. -/
def bound_userdata {U : Type} : ClosureState U → Option U
  | .prepared _ _ ud _ => some ud
  | _ => none

/-- Modelled from the spec: invoking the executable entry point of a
prepared trampoline forwards the cif, the incoming argument values and the
bound user-data pointer to the callback and yields the value the callback
wrote to the result slot; the closure block itself is not written by an
invocation.  Invoking an unprepared or freed trampoline has no defined
result. -/
def invoke {U : Type} (s : ClosureState U) (args : List Nat) (mem : Mem) :
    Option (Nat × ClosureState U × Mem) :=
  match s with
  | .prepared cif fn ud code =>
      some ((fn cif args ud mem).1, .prepared cif fn ud code,
            (fn cif args ud mem).2)
  | _ => none

/-- Runs a sequence of single-argument invocations through the same entry
point, threading the closure state and the memory from call to call, and
collects the results. -/
def run_seq {U : Type} (s : ClosureState U) (mem : Mem) :
    List Nat → Option (List Nat)
  | [] => some []
  | x :: xs =>
    match invoke s [x] mem with
    | some (r, s2, mem2) => (run_seq s2 mem2 xs).map (fun rs => r :: rs)
    | none => none

/-- `closure_free` (src/src/low.rs lines 105-107): releases the closure
block; afterwards the trampoline is freed. -/
def closure_free {U : Type} (_closure : ClosureState U) : ClosureState U :=
  .freed

/-- Modelled from the spec: the external dual-mapping allocator
`ffi_closure_alloc` (missing `c` module), as an arbitrary function from the
requested byte count to the writable closure pointer it returns (0, the
null pointer, exactly when the underlying allocation fails) and the
executable entry point it writes through its out-parameter. -/
def FfiClosureAllocator : Type := Nat → Nat × Nat

/-- Modelled from the spec: the platform-dependent byte size of one closure
control block, `size_of::<ffi_closure>()`; a fixed positive constant whose
exact value is immaterial here. -/
def sizeof_ffi_closure : Nat := 56

/-- `closure_alloc` (src/src/low.rs lines 95-102): requests exactly
`sizeof_ffi_closure` bytes from the allocator and returns the resulting
pair of writable closure pointer and entry point unchanged; the return type
carries no failure indication. -/
def closure_alloc (a : FfiClosureAllocator) : Nat × Nat :=
  a sizeof_ffi_closure

/-- Modelled from the spec: the lifecycle phases of a closure trampoline,
`Allocated → Prepared → Freed`. -/
inductive Phase
  | Allocated
  | Prepared
  | Freed
  deriving DecidableEq, Repr

/-- Modelled from the spec: the supported lifecycle transitions of one
trampoline.  `prepare_step` binds an allocated, not-yet-prepared trampoline
and `free_step` releases it; no other transition is supported. -/
inductive LifecycleStep : Phase → Phase → Prop
  | prepare_step : LifecycleStep .Allocated .Prepared
  | free_step : LifecycleStep .Prepared .Freed

/-- The lifecycle phase of a closure block. -/
def phase_of {U : Type} : ClosureState U → Phase
  | .allocated => .Allocated
  | .prepared _ _ _ _ => .Prepared
  | .freed => .Freed

/-- The uint64 type descriptor `ffi_type_uint64` re-exported at
src/src/low.rs line 40; a well-formed 8-byte descriptor. -/
def ffi_type_uint64 : ffi_type := ⟨8, 8, true⟩

/-- Modelled from the spec: the platform's default ABI tag, which the
platform implements. -/
def FFI_DEFAULT_ABI : ffi_abi := ⟨2, true⟩

/-- Address at which the test's captured `env: u64 = 5` lives
(src/src/low.rs line 156). -/
def env_addr : Nat := 1

/-- Memory for the test `closure` (src/src/low.rs lines 151-173): the
captured constant 5 stored at `env_addr`. -/
def test_mem : Mem := fun a => if a = env_addr then 5 else 0

/-- The test callback (src/src/low.rs lines 140-149): writes
`args[0] + mem[userdata]` (u64 wrapping addition) to the result slot and
leaves memory unchanged. -/
def test_callback : Callback Nat :=
  fun _cif args ud mem => ((args.headD 0 + mem ud) % UINT64_MOD, mem)

/-- The cif build performed by the test: one uint64 argument, uint64
return, default ABI (src/src/low.rs lines 158-159). -/
def test_cif_build : Result Unit × ffi_cif :=
  prep_cif cif0 FFI_DEFAULT_ABI 1 ffi_type_uint64 [ffi_type_uint64]

/-- The cif the test builds. -/
def test_cif : ffi_cif := test_cif_build.2

/-- An arbitrary concrete entry-point address for the test closure. -/
def test_code : Nat := 1000

/-- The closure preparation performed by the test (src/src/low.rs lines
164-168): binds `test_callback` with user data pointing at the captured
constant. -/
def test_prep : Result Unit × ClosureState Nat × ffi_cif :=
  prep_closure_loc .allocated test_cif test_callback env_addr test_code

/-- The prepared test closure. -/
def test_prepared : ClosureState Nat := test_prep.2.1

/-- The native function computing `x + 1` on u64, wrapping at `2 ^ 64`. -/
def add1_u64 : Nat → Nat := fun x => (x + 1) % UINT64_MOD

/-- An allocator whose underlying allocation fails: it returns the null
writable pointer. -/
def failing_allocator : FfiClosureAllocator := fun _ => (0, 0)

/-- A malformed type descriptor: its layout metadata is internally
inconsistent. -/
def ffi_type_bad : ffi_type := ⟨0, 0, false⟩

/-- C1: a trampoline prepared over a `(uint64) -> uint64` interface with
the callback that adds the captured user-data constant `k = 5` to its
single argument yields 11 on input 6 and 12 on input 7, and repeating the
same two invocations through the same entry point yields the same results
again, with no state corrupted across invocations. -/
theorem trampoline_correctness :
    test_cif_build.1 = .ok () ∧ test_prep.1 = .ok () ∧
    run_seq test_prepared test_mem [6, 7, 6, 7] = some [11, 12, 11, 12] :=
  ⟨rfl, rfl, rfl⟩

/-- C2: for every u64 value `x`, calling through the successfully built
`(uint64) -> uint64` interface with the target computing `x + 1` wrapping
at `2 ^ 64` returns `(x + 1) % 2 ^ 64`. -/
theorem call_roundtrip (x : Nat) (_hx : x < UINT64_MOD) :
    test_cif_build.1 = .ok () ∧
    (call test_cif add1_u64 [x]).1 = (x + 1) % UINT64_MOD :=
  ⟨rfl, rfl⟩

/-- Witness for C2 at the maximum u64 value. -/
theorem call_roundtrip_witness :
    2 ^ 64 - 1 < UINT64_MOD ∧
    (test_cif_build.1 = .ok () ∧
     (call test_cif add1_u64 [2 ^ 64 - 1]).1 =
       (2 ^ 64 - 1 + 1) % UINT64_MOD) :=
  ⟨by decide, call_roundtrip (2 ^ 64 - 1) (by decide)⟩

/-- C3: every fallible operation classifies the underlying status into
exactly the two error kinds: `ffi_status_to_result` yields `ok` exactly on
`FFI_OK`, `BadTypedef` exactly on `FFI_BAD_TYPEDEF`, `BadAbi` exactly on
`FFI_BAD_ABI`, with no other outcome possible, and `prep_cif`,
`prep_cif_var` and `prep_closure_loc` each report exactly this
classification of their underlying status. -/
theorem error_taxonomy :
    (∀ (s : ffi_status) (R : Type) (g : R),
       (ffi_status_to_result s g = .ok g ↔ s = .FFI_OK) ∧
       (ffi_status_to_result s g = .error .BadTypedef ↔
          s = .FFI_BAD_TYPEDEF) ∧
       (ffi_status_to_result s g = .error .BadAbi ↔ s = .FFI_BAD_ABI) ∧
       (ffi_status_to_result s g = .ok g ∨
        ffi_status_to_result s g = .error .BadTypedef ∨
        ffi_status_to_result s g = .error .BadAbi)) ∧
    (∀ cif abi nargs rtype atypes,
       (prep_cif cif abi nargs rtype atypes).1 =
         ffi_status_to_result
           (ffi_prep_cif cif abi (c_uint_of nargs) rtype atypes).1 ()) ∧
    (∀ cif abi nf nt rtype atypes,
       (prep_cif_var cif abi nf nt rtype atypes).1 =
         ffi_status_to_result
           (ffi_prep_cif_var cif abi (c_uint_of nf) (c_uint_of nt) rtype
              atypes).1 ()) ∧
    (∀ (U : Type) (c : ClosureState U) cif fn ud code,
       (prep_closure_loc c cif fn ud code).1 =
         ffi_status_to_result
           (ffi_prep_closure_loc c cif fn ud code).1 ()) := by
  refine ⟨fun s R g => ?_, fun _ _ _ _ _ => rfl, fun _ _ _ _ _ _ => rfl,
    fun _ _ _ _ _ _ => rfl⟩
  cases s <;> simp [ffi_status_to_result]

/-- Witness for C3: the classification applied at a concrete status. -/
theorem error_taxonomy_witness :
    ffi_status_to_result ffi_status.FFI_BAD_ABI (0 : Nat) =
      .error .BadAbi :=
  ((error_taxonomy.1 .FFI_BAD_ABI Nat 0).2.2.1).mpr rfl

/-- Counterexample to C4 as stated: at `nargs = 2 ^ 32` with an
argument-type list of that length, the build succeeds through the
truncating `nargs as c_uint` cast and the descriptor's argument count is
0, not the supplied `nargs` and not `len(argTypes)`. -/
theorem prep_cif_nargs_counterexample :
    (prep_cif cif0 FFI_DEFAULT_ABI (2 ^ 32) ffi_type_uint64
        (List.replicate (2 ^ 32) ffi_type_uint64)).1 = .ok () ∧
    (List.replicate (2 ^ 32) ffi_type_uint64).length = 2 ^ 32 ∧
    (prep_cif cif0 FFI_DEFAULT_ABI (2 ^ 32) ffi_type_uint64
        (List.replicate (2 ^ 32) ffi_type_uint64)).2.nargs = 0 ∧
    (0 : Nat) ≠ 2 ^ 32 :=
  ⟨rfl, List.length_replicate _ _, rfl, by decide⟩

/-- C4 (amended): when `prep_cif` succeeds, the resulting descriptor's
argument count equals the caller-supplied `nargs` reduced modulo `2 ^ 32`
by the `nargs as c_uint` cast; in particular it equals `nargs` itself, and
its argument-type sequence is the caller's list of length `nargs`,
whenever `nargs < 2 ^ 32`. -/
theorem prep_cif_nargs (cif : ffi_cif) (abi : ffi_abi) (nargs : Nat)
    (rtype : ffi_type) (atypes : List ffi_type)
    (h : (prep_cif cif abi nargs rtype atypes).1 = .ok ()) :
    (prep_cif cif abi nargs rtype atypes).2.nargs = c_uint_of nargs ∧
    (nargs < UINT32_MOD →
      (prep_cif cif abi nargs rtype atypes).2.nargs = nargs) ∧
    (atypes.length = nargs → nargs < UINT32_MOD →
      (prep_cif cif abi nargs rtype atypes).2.arg_types = atypes) := by
  by_cases h1 : typesWellFormed rtype (atypes.take (c_uint_of nargs))
  · by_cases h2 : abi.supported
    · refine ⟨?_, ?_, ?_⟩
      · simp [prep_cif, ffi_prep_cif, h1, h2]
      · intro hlt
        have hcu : c_uint_of nargs = nargs := Nat.mod_eq_of_lt hlt
        rw [hcu] at h1
        simp [prep_cif, ffi_prep_cif, hcu, h1, h2]
      · intro hlen hlt
        subst hlen
        have hcu : c_uint_of atypes.length = atypes.length :=
          Nat.mod_eq_of_lt hlt
        rw [hcu, List.take_length] at h1
        simp [prep_cif, ffi_prep_cif, c_uint_of, Nat.mod_eq_of_lt hlt,
          List.take_length, h1, h2]
    · simp [prep_cif, ffi_prep_cif, h1, h2, ffi_status_to_result] at h
  · simp [prep_cif, ffi_prep_cif, h1, ffi_status_to_result] at h

/-- Witness for C4 at the concrete one-argument u64 interface. -/
theorem prep_cif_nargs_witness :
    (prep_cif cif0 FFI_DEFAULT_ABI 1 ffi_type_uint64 [ffi_type_uint64]).1 =
      .ok () ∧
    1 < UINT32_MOD ∧
    (prep_cif cif0 FFI_DEFAULT_ABI 1 ffi_type_uint64
        [ffi_type_uint64]).2.nargs = 1 ∧
    (prep_cif cif0 FFI_DEFAULT_ABI 1 ffi_type_uint64
        [ffi_type_uint64]).2.arg_types = [ffi_type_uint64] :=
  ⟨rfl, by decide,
   (prep_cif_nargs cif0 FFI_DEFAULT_ABI 1 ffi_type_uint64
      [ffi_type_uint64] rfl).2.1 (by decide),
   (prep_cif_nargs cif0 FFI_DEFAULT_ABI 1 ffi_type_uint64
      [ffi_type_uint64] rfl).2.2 rfl (by decide)⟩

/-- Counterexample to C5 as stated: with `fixedCount = 2 ^ 32` and
`totalCount = 1` the truncating `as c_uint` casts turn the counts into
`(0, 1)` and the build succeeds even though the supplied fixed count
exceeds the supplied total count. -/
theorem prep_cif_var_fixed_le_total_counterexample :
    1 < 2 ^ 32 ∧
    (prep_cif_var cif0 FFI_DEFAULT_ABI (2 ^ 32) 1 ffi_type_uint64
        [ffi_type_uint64]).1 = .ok () :=
  ⟨by decide, rfl⟩

/-- C5 (amended): the `fixedCount <= totalCount` requirement applies to
the counts after the truncating `as c_uint` casts: `prep_cif_var` never
succeeds when the truncated fixed count exceeds the truncated total count
(for counts below `2 ^ 32` this is the original requirement). -/
theorem prep_cif_var_fixed_le_total (cif : ffi_cif) (abi : ffi_abi)
    (nfixedargs ntotalargs : Nat) (rtype : ffi_type)
    (atypes : List ffi_type)
    (h : c_uint_of ntotalargs < c_uint_of nfixedargs) :
    (prep_cif_var cif abi nfixedargs ntotalargs rtype atypes).1 ≠
      .ok () := by
  by_cases h1 : typesWellFormed rtype (atypes.take (c_uint_of ntotalargs))
  · by_cases h2 : abi.supported
    · simp [prep_cif_var, ffi_prep_cif_var, h1, h2, h,
        ffi_status_to_result]
    · simp [prep_cif_var, ffi_prep_cif_var, h1, h2, ffi_status_to_result]
  · simp [prep_cif_var, ffi_prep_cif_var, h1, ffi_status_to_result]

/-- Witness for C5 with two fixed arguments out of one total. -/
theorem prep_cif_var_fixed_le_total_witness :
    c_uint_of 1 < c_uint_of 2 ∧
    (prep_cif_var cif0 FFI_DEFAULT_ABI 2 1 ffi_type_uint64
        [ffi_type_uint64]).1 ≠ .ok () :=
  ⟨by decide,
   prep_cif_var_fixed_le_total cif0 FFI_DEFAULT_ABI 2 1 ffi_type_uint64
     [ffi_type_uint64] (by decide)⟩

/-- C6: a trampoline successfully bound with user-data pointer `ud`
delivers exactly that pointer to the callback on every invocation: the
bound pointer is `ud`, and each invocation calls the callback at `ud` and
leaves the closure block unchanged, so later invocations do the same. -/
theorem userdata_delivery (U : Type) (c : ClosureState U) (cif : ffi_cif)
    (fn : Callback U) (ud : U) (code : Nat)
    (h : (prep_closure_loc c cif fn ud code).1 = .ok ()) :
    bound_userdata (prep_closure_loc c cif fn ud code).2.1 = some ud ∧
    ∀ (args : List Nat) (mem : Mem),
      invoke (prep_closure_loc c cif fn ud code).2.1 args mem =
        some ((fn cif args ud mem).1,
              (prep_closure_loc c cif fn ud code).2.1,
              (fn cif args ud mem).2) := by
  by_cases h1 : typesWellFormed cif.rtype cif.arg_types
  · by_cases h2 : cif.abi.supported
    · constructor
      · simp [prep_closure_loc, ffi_prep_closure_loc, h1, h2,
          bound_userdata]
      · intro args mem
        simp [prep_closure_loc, ffi_prep_closure_loc, h1, h2, invoke]
    · simp [prep_closure_loc, ffi_prep_closure_loc, h1, h2,
        ffi_status_to_result] at h
  · simp [prep_closure_loc, ffi_prep_closure_loc, h1,
      ffi_status_to_result] at h

/-- Witness for C6 at the concrete test closure and input 6. -/
theorem userdata_delivery_witness :
    test_prep.1 = .ok () ∧
    bound_userdata test_prep.2.1 = some env_addr ∧
    invoke test_prep.2.1 [6] test_mem =
      some ((test_callback test_cif [6] env_addr test_mem).1,
            test_prep.2.1,
            (test_callback test_cif [6] env_addr test_mem).2) :=
  ⟨rfl,
   (userdata_delivery Nat .allocated test_cif test_callback env_addr
      test_code rfl).1,
   (userdata_delivery Nat .allocated test_cif test_callback env_addr
      test_code rfl).2 [6] test_mem⟩

/-- C7: a call interface descriptor is consumed read-only: `call` and
`prep_closure_loc` both leave the descriptor they reference unchanged. -/
theorem cif_immutable :
    (∀ (cif : ffi_cif) (fn : Nat → Nat) (args : List Nat),
       (call cif fn args).2 = cif) ∧
    (∀ (U : Type) (c : ClosureState U) (cif : ffi_cif) (fn : Callback U)
       (ud : U) (code : Nat),
       (prep_closure_loc c cif fn ud code).2.2 = cif) :=
  ⟨fun _ _ _ => rfl, fun _ _ _ _ _ _ => rfl⟩

/-- Counterexample to C8 as stated: at `nargs = 2 ^ 32` the truncating
`nargs as c_uint` cast makes the build read zero argument descriptors, so
with a malformed descriptor given in the argument list the build succeeds
instead of failing with `BadTypedef`. -/
theorem prep_cif_bad_typedef_counterexample :
    ffi_type_bad.wellFormed = false ∧
    (prep_cif cif0 FFI_DEFAULT_ABI (2 ^ 32) ffi_type_uint64
        [ffi_type_bad]).1 = .ok () :=
  ⟨rfl, rfl⟩

/-- C8 (amended): for every malformed type descriptor among those the
build actually reads — the return type and the first `nargs` mod `2 ^ 32`
argument descriptors — `prep_cif` fails with `BadTypedef` and the
caller-visible cif storage is exactly as supplied, untouched. -/
theorem prep_cif_bad_typedef (cif : ffi_cif) (abi : ffi_abi) (nargs : Nat)
    (rtype : ffi_type) (atypes : List ffi_type)
    (h : typesWellFormed rtype (atypes.take (c_uint_of nargs)) = false) :
    (prep_cif cif abi nargs rtype atypes).1 = .error .BadTypedef ∧
    (prep_cif cif abi nargs rtype atypes).2 = cif := by
  simp [prep_cif, ffi_prep_cif, h, ffi_status_to_result]

/-- Witness for C8 at a concrete malformed return-type descriptor. -/
theorem prep_cif_bad_typedef_witness :
    typesWellFormed ffi_type_bad ([ffi_type_uint64].take (c_uint_of 1)) =
      false ∧
    (prep_cif cif0 FFI_DEFAULT_ABI 1 ffi_type_bad [ffi_type_uint64]).1 =
      .error .BadTypedef ∧
    (prep_cif cif0 FFI_DEFAULT_ABI 1 ffi_type_bad [ffi_type_uint64]).2 =
      cif0 :=
  ⟨rfl,
   (prep_cif_bad_typedef cif0 FFI_DEFAULT_ABI 1 ffi_type_bad
      [ffi_type_uint64] rfl).1,
   (prep_cif_bad_typedef cif0 FFI_DEFAULT_ABI 1 ffi_type_bad
      [ffi_type_uint64] rfl).2⟩

/-- C9: the trampoline lifecycle is `Allocated → Prepared → Freed`: every
supported transition into `Prepared` starts from `Allocated` (so
re-preparing a prepared trampoline is not a supported transition), `Freed`
is terminal, and the prepare and free operations realise exactly these
transitions on closure blocks. -/
theorem lifecycle_state_machine :
    (∀ p q : Phase, LifecycleStep p q → q = .Prepared → p = .Allocated) ∧
    (∀ q : Phase, ¬ LifecycleStep .Freed q) ∧
    (∀ (U : Type) (cif : ffi_cif) (fn : Callback U) (ud : U) (code : Nat),
       (ffi_prep_closure_loc (.allocated : ClosureState U) cif fn ud
           code).1 = .FFI_OK →
       LifecycleStep (phase_of (ClosureState.allocated : ClosureState U))
         (phase_of (ffi_prep_closure_loc (.allocated : ClosureState U)
            cif fn ud code).2)) ∧
    (∀ (U : Type) (cif : ffi_cif) (fn : Callback U) (ud : U) (code : Nat),
       LifecycleStep
         (phase_of (ClosureState.prepared cif fn ud code))
         (phase_of (closure_free (ClosureState.prepared cif fn ud
            code)))) := by
  refine ⟨?_, ?_, ?_, ?_⟩
  · intro p q h hq
    cases h
    · rfl
    · exact absurd hq (by decide)
  · intro q h
    cases h
  · intro U cif fn ud code h
    by_cases h1 : typesWellFormed cif.rtype cif.arg_types
    · by_cases h2 : cif.abi.supported
      · simpa [ffi_prep_closure_loc, h1, h2, phase_of] using
          LifecycleStep.prepare_step
      · simp [ffi_prep_closure_loc, h1, h2] at h
    · simp [ffi_prep_closure_loc, h1] at h
  · intro U cif fn ud code
    exact LifecycleStep.free_step

/-- Witness for C9: the concrete prepare transition out of `Allocated`. -/
theorem lifecycle_state_machine_witness :
    Phase.Allocated = Phase.Allocated ∧
    LifecycleStep (phase_of (ClosureState.allocated : ClosureState Nat))
      (phase_of (ffi_prep_closure_loc (.allocated : ClosureState Nat)
         test_cif test_callback env_addr test_code).2) :=
  ⟨lifecycle_state_machine.1 .Allocated .Prepared
     LifecycleStep.prepare_step rfl,
   lifecycle_state_machine.2.2.1 Nat test_cif test_callback env_addr
     test_code rfl⟩

/-- C10: `closure_alloc` always returns a pair and reports no failure: it
requests exactly `sizeof_ffi_closure` bytes from the allocator and returns
the allocator's pair unchanged, so when the underlying allocation fails
the writable handle in the returned pair is null (0). -/
theorem closure_alloc_total (a : FfiClosureAllocator) :
    closure_alloc a = a sizeof_ffi_closure ∧
    ((a sizeof_ffi_closure).1 = 0 → (closure_alloc a).1 = 0) :=
  ⟨rfl, fun h => h⟩

/-- Witness for C10 at an allocator whose allocation fails. -/
theorem closure_alloc_total_witness :
    (failing_allocator sizeof_ffi_closure).1 = 0 ∧
    (closure_alloc failing_allocator).1 = 0 :=
  ⟨rfl, (closure_alloc_total failing_allocator).2 rfl⟩

end Low
